import Mathlib

/-!
Verification of the spectral-anomaly chunked compositing pipeline
(apps/spectral_anomaly/tasks.py).

Pixel values are modelled as rationals.  Boolean rasters are modelled
per pixel (NumPy / xarray broadcasting is pointwise, so each per-pixel
fact lifts to the whole raster).  NaN, which the assembler writes into
the selected difference band at no-data pixels, is modelled by the
`none` case of `Option`.
-/

namespace SpectralAnomaly

/-! ## Chunk-level clean-mask construction (tasks.py lines 314-322) -/

/-- Line 320: `no_data_mask = time_column_data[measurements_list[0]].values != no_data_value`.
True exactly where the reference band differs from the no-data sentinel,
i.e. a validity bit. -/
def no_data_mask_bit (v nd : ℚ) : Bool := decide (v ≠ nd)

/-- Line 322: `time_column_clean_mask = time_column_clean_mask | time_column_invalid_mask | no_data_mask`.
`nativeClean` is the per-pixel-time output of the satellite clean-mask
function (true = clean observation), `physValid` the per-pixel-time output
of `landsat_clean_mask_invalid` (true = value within the physically
believable range), and the third disjunct is the no-data validity bit of
line 320.  The result is passed as `clean_mask=` to the compositor, so
true means the observation feeds the composite. -/
def combined_clean_mask (nativeClean physValid : Bool) (v nd : ℚ) : Bool :=
  nativeClean || physValid || no_data_mask_bit v nd

/-! ## Per-window and combined out-of-range masks (tasks.py lines 359-373, 387) -/

/-- One band against the composite thresholds:
`(band < task.composite_threshold_min) or (task.composite_threshold_max < band)`. -/
def band_out_of_range (v tmin tmax : ℚ) : Bool :=
  decide (v < tmin) || decide (tmax < v)

/-- Lines 360-362: single-band index out-of-range mask for one window. -/
def window_out_of_range_single (v tmin tmax : ℚ) : Bool :=
  band_out_of_range v tmin tmax

/-- Lines 366-373: fractional-cover out-of-range mask for one window,
with the nested `xr_or` structure of the source. -/
def window_out_of_range_frac (bs pv npv tmin tmax : ℚ) : Bool :=
  (band_out_of_range bs tmin tmax || band_out_of_range pv tmin tmax) ||
    band_out_of_range npv tmin tmax

/-- Line 387: `composite_out_of_range = xr_or(*composites_out_of_range.values())`,
the dict holding the baseline mask then the analysis mask. -/
def combined_out_of_range (baselineOOR analysisOOR : Bool) : Bool :=
  baselineOOR || analysisOOR

/-- Spec-side statement for C2 (single band): true exactly where the value is
below compositeMin or above compositeMax. -/
def specWindowOutOfRangeSingle (v tmin tmax : ℚ) : Prop := v < tmin ∨ v > tmax

/-- Spec-side statement for C2 (fractional cover): true exactly where ANY of
the three bands individually violates the bounds. -/
def specWindowOutOfRangeFrac (bs pv npv tmin tmax : ℚ) : Prop :=
  specWindowOutOfRangeSingle bs tmin tmax ∨ specWindowOutOfRangeSingle pv tmin tmax ∨
    specWindowOutOfRangeSingle npv tmin tmax

/-! ## Combined no-data mask (tasks.py lines 389-407) -/

/-- Lines 390-391: single-band index rule — reference band of the baseline or
of the analysis composite equals the sentinel. -/
def composite_no_data_single (refB refA nd : ℚ) : Bool :=
  decide (refB = nd) || decide (refA = nd)

/-- Lines 392-397: EVI additionally flags pixels where the derived index band
of either composite equals the sentinel. -/
def composite_no_data_evi (refB refA idxB idxA nd : ℚ) : Bool :=
  composite_no_data_single refB refA nd ||
    (decide (idxB = nd) || decide (idxA = nd))

/-- Lines 399-406: fractional-cover rule.  The source references
`composites['baseline']` in BOTH halves of the outer `xr_or` — the second
half repeats the baseline bands instead of using the analysis bands, so the
analysis arguments are never consulted.  This definition mirrors that text. -/
def composite_no_data_frac (bsB pvB npvB bsA pvA npvA nd : ℚ) : Bool :=
  ((decide (bsB = nd) || decide (pvB = nd)) || decide (npvB = nd)) ||
    ((decide (bsB = nd) || decide (pvB = nd)) || decide (npvB = nd))

/-! ## Fractional-cover rescale (tasks.py lines 347-351) -/

/-- Two-point `np.interp(x, (x0, x1), (y0, y1))`: linear interpolation on
the interval, with values clipped to `y0` below `x0` and to `y1` above
`x1` (NumPy returns the edge ordinate outside the sample range). -/
def np_interp (x x0 x1 y0 y1 : ℚ) : ℚ :=
  if x ≤ x0 then y0
  else if x1 ≤ x then y1
  else y0 + (x - x0) * (y1 - y0) / (x1 - x0)

/-- Lines 347-351: `np.interp(composite[band].values, (0, 106), (0, 100))`
applied to each of the bs/pv/npv bands. -/
def frac_cover_rescale (v : ℚ) : ℚ := np_interp v 0 106 0 100

/-! ## Difference composite (tasks.py lines 385 and 410) -/

/-- Lines 385 and 410: `diff_composite = composites['analysis'] - composites['baseline']`
followed by `diff_composite.drop(measurements_list)`.  A composite is
modelled per pixel as a band-name-indexed family of values; the result
lists the retained bands with their band-wise differences. -/
def diff_composite_bands (analysis baseline : String → ℚ)
    (bands measurements : List String) : List (String × ℚ) :=
  (bands.filter (fun b => decide (b ∉ measurements))).map
    (fun b => (b, analysis b - baseline b))

/-! ## Product assembly (tasks.py lines 499-553) -/

/-- An RGBA color with rational channels, as produced by
`mpl.colors.to_rgba`. -/
structure Color where
  r : ℚ
  g : ℚ
  b : ℚ
  a : ℚ
  deriving DecidableEq, Repr

/-- Line 530: `mpl.colors.to_rgba('red')`, the flat highlight color of the
binary change product. -/
def red_rgba : Color := ⟨1, 0, 0, 1⟩

/-- Line 536: `mpl.colors.to_rgba('black')`, the out-of-change-range color. -/
def black_rgba : Color := ⟨0, 0, 0, 1⟩

/-- Line 542: `mpl.colors.to_rgba('white')`, the out-of-composite-range color. -/
def white_rgba : Color := ⟨1, 1, 1, 1⟩

/-- Line 546: `np.array([0., 0., 0., 0.])`, the fully transparent no-data color. -/
def transparent_rgba : Color := ⟨0, 0, 0, 0⟩

/-- Line 504: `diff_comp_np_arr[composite_no_data] = np.nan` — the selected
difference band holds NaN (`none`) at no-data pixels and its numeric
difference value everywhere else.  This same array backs the band that
lines 550-552 export to the archival and georeferenced rasters. -/
def exported_selected_band_value (diffVal : ℚ) (noData : Bool) : Option ℚ :=
  if noData then none else some diffVal

/-- Line 513-516: the band list selected for the numeric exports. -/
def single_band_indices : List String := ["ndvi", "ndbi", "ndwi", "evi"]

/-- The arguments of the `write_geotiff_from_xr` call: band list and the
declared no-data value. -/
structure GeoTiffCall where
  bands : List String
  noData : ℚ
  deriving DecidableEq, Repr

/-- Lines 513-516 and 551-552: the georeferenced raster is written with the
selected band(s) and `no_data=task.satellite.no_data_value`. -/
def make_geotiff_call (spectralIndex : String) (satNoData : ℚ) : GeoTiffCall :=
  ⟨if spectralIndex ∈ single_band_indices then [spectralIndex] else ["bs", "pv", "npv"],
    satNoData⟩

/-- Lines 537-539: `(diff_comp_np_arr < cng_min) | (cng_max < diff_comp_np_arr)`.
NaN (`none`) compares false on both sides, as in NumPy. -/
def change_range_flag (dEff : Option ℚ) (lo hi : ℚ) : Bool :=
  match dEff with
  | none => false
  | some v => decide (v < lo) || decide (hi < v)

/-- Lines 499-547: the color of one visualization pixel.
`cmapA` is the diverging colormap (`plt.get_cmap('RdYlGn')`), abstract,
applied to the interp-normalized difference (NaN-aware).  The layering
follows the source: flat red base when both change thresholds are set,
otherwise the colormap; then black where the raw difference escapes a
configured change range; then white where the combined out-of-range mask
flags; then transparent where the combined no-data mask flags. -/
def pixel_color (cmapA : Option ℚ → Color) (cngMin cngMax : Option ℚ)
    (dMin dMax d : ℚ) (outOfRange noData : Bool) : Color :=
  let dEff : Option ℚ := if noData then none else some d
  let normalized : Option ℚ := Option.map (fun x => np_interp x dMin dMax 0 1) dEff
  let base : Color :=
    match cngMin, cngMax with
    | some _, some _ => red_rgba
    | _, _ => cmapA normalized
  let afterChange : Color :=
    match cngMin, cngMax with
    | some lo, some hi => if change_range_flag dEff lo hi then black_rgba else base
    | _, _ => base
  let afterRange : Color := if outOfRange then white_rgba else afterChange
  if noData then transparent_rgba else afterRange

/-! ## Progress accounting (tasks.py lines 220-241 and 379-380) -/

/-- Python 3 `round` on an exact rational: nearest integer, ties to even. -/
def pyRound (q : ℚ) : ℤ :=
  let f := ⌊q⌋
  let r := q - (f : ℚ)
  if r < 1 / 2 then f
  else if 1 / 2 < r then f + 1
  else if f % 2 = 0 then f else f + 1

/-- Line 237: `num_scn_per_chk_geo = {k: round(v/len(geographic_chunks)) for k, v in num_scenes.items()}` —
the pre-estimated per-chunk scene count for one window. -/
def num_scn_per_chk (total nChunks : ℕ) : ℤ :=
  pyRound ((total : ℚ) / (nChunks : ℚ))

/-- Lines 379-380, aggregated: each chunk performs one increment of the
per-chunk estimate for its baseline window and one for its analysis
window. -/
def window_increments (nChunks baselineTotal analysisTotal : ℕ) : List ℤ :=
  (List.replicate nChunks
    [num_scn_per_chk baselineTotal nChunks, num_scn_per_chk analysisTotal nChunks]).flatten

/-- The value of `task.scenes_processed` once both windows of every chunk
have completed (increments are additive, so order is irrelevant). -/
def final_progress (nChunks baselineTotal analysisTotal : ℕ) : ℤ :=
  (window_increments nChunks baselineTotal analysisTotal).sum

/-- Line 239: `task.total_scenes = sum(num_scenes.values())`. -/
def total_scenes (baselineTotal analysisTotal : ℕ) : ℕ :=
  baselineTotal + analysisTotal

/-! ## Empty chunks and recombination (tasks.py lines 310-312 and 438-440) -/

/-- Lines 310-312 for each of the two windows: loading data with no
dimensions (`len(time_column_data.dims) == 0`) makes the chunk return
`None`; otherwise the chunk artifact is produced. -/
def processing_task_result {α : Type} (baselineDims analysisDims : ℕ)
    (artifact : α) : Option α :=
  if baselineDims = 0 then none
  else if analysisDims = 0 then none
  else some artifact

/-- Line 439: `total_chunks = [chunk for chunk in total_chunks if chunk is not None]`. -/
def recombine_filtered {α : Type} (chunks : List (Option α)) : List α :=
  chunks.filterMap id

/-- Lines 439-440: the recombiner drops null artifacts and returns a
whole-run null outcome when nothing remains; otherwise it proceeds to
merge exactly the surviving artifacts. -/
def recombine_result {α : Type} (chunks : List (Option α)) : Option (List α) :=
  if (recombine_filtered chunks).length = 0 then none
  else some (recombine_filtered chunks)

/-! ## Helper lemmas -/

/-- The pixel color collapses to a priority chain: no-data beats
out-of-composite-range beats (when a change range is configured)
out-of-change-range beats the base color. -/
theorem pixel_color_eq (cmapA : Option ℚ → Color) (cngMin cngMax : Option ℚ)
    (dMin dMax d : ℚ) (oor nd : Bool) :
    pixel_color cmapA cngMin cngMax dMin dMax d oor nd =
      if nd then transparent_rgba
      else if oor then white_rgba
      else
        match cngMin, cngMax with
        | some lo, some hi =>
            if change_range_flag (some d) lo hi then black_rgba else red_rgba
        | _, _ => cmapA (some (np_interp d dMin dMax 0 1)) := by
  cases nd <;> cases oor <;> cases cngMin <;> cases cngMax <;>
    simp [pixel_color, change_range_flag]

/-- Summing a replicated two-increment block. -/
theorem sum_replicate_pair (n : ℕ) (x y : ℤ) :
    ((List.replicate n [x, y]).flatten).sum = n * (x + y) := by
  induction n with
  | zero => simp
  | succ k ih =>
      simp only [List.replicate_succ, List.flatten_cons, List.sum_append, ih,
        List.sum_cons, List.sum_nil]
      push_cast
      ring

/-! ## Claim theorems -/

/-- Claim C1 (code bug): the claim says a pixel-time observation is excluded
from compositing whenever any one of the three masks flags it, and the code
comment says the no-data points are excluded; but line 322 joins the three
validity masks with `|`, so a pixel-time whose reference band equals the
no-data sentinel (its no-data validity bit is false) is still included in
the clean mask whenever the native satellite mask calls it clean. -/
theorem clean_mask_includes_no_data_pixel :
    combined_clean_mask true false (-9999) (-9999) = true ∧
    no_data_mask_bit (-9999) (-9999) = false := by
  exact ⟨rfl, by decide⟩

/-- Claim C2: the combined out-of-range mask equals baseline OR analysis,
where each window flags a single-band index below compositeMin or above
compositeMax, and flags fractional cover when ANY of bs/pv/npv violates
those bounds. -/
theorem combined_out_of_range_matches_spec
    (vb va bs1 pv1 npv1 bs2 pv2 npv2 tmin tmax : ℚ) :
    (combined_out_of_range (window_out_of_range_single vb tmin tmax)
        (window_out_of_range_single va tmin tmax) = true ↔
      specWindowOutOfRangeSingle vb tmin tmax ∨ specWindowOutOfRangeSingle va tmin tmax) ∧
    (combined_out_of_range (window_out_of_range_frac bs1 pv1 npv1 tmin tmax)
        (window_out_of_range_frac bs2 pv2 npv2 tmin tmax) = true ↔
      specWindowOutOfRangeFrac bs1 pv1 npv1 tmin tmax ∨
        specWindowOutOfRangeFrac bs2 pv2 npv2 tmin tmax) := by
  constructor <;>
    simp [combined_out_of_range, window_out_of_range_single, window_out_of_range_frac,
      band_out_of_range, specWindowOutOfRangeSingle, specWindowOutOfRangeFrac,
      gt_iff_lt, or_assoc]

/-- Witness for C2 at a concrete input: a baseline value of 2 against the
range [0, 1] makes the combined mask fire, and the spec-side disjunction
holds. -/
theorem combined_out_of_range_matches_spec_witness :
    specWindowOutOfRangeSingle 2 0 1 ∨ specWindowOutOfRangeSingle 0 0 1 :=
  (combined_out_of_range_matches_spec 2 0 0 0 0 0 0 0 0 1).1.mp (by decide)

/-- Claim C3 (code bug): the claim (and the comment on line 388) says the
fractional-cover no-data mask fires when any bs/pv/npv band of the baseline
OR the analysis composite equals the sentinel, but lines 399-406 test the
baseline bands twice: an analysis composite whose bs band is the sentinel is
not flagged, while the mirrored baseline case is. -/
theorem frac_no_data_checks_baseline_twice :
    composite_no_data_frac 0 0 0 (-9999) 0 0 (-9999) = false ∧
    composite_no_data_frac (-9999) 0 0 0 0 0 (-9999) = true := by decide

/-- Counterexample for C4: the rescale is np.interp, which clips — input 212
yields exactly 100, although the proportional image 212·100/106 lies
strictly beyond the upper bound. -/
theorem frac_cover_rescale_clamps_above :
    frac_cover_rescale 212 = 100 ∧ (100 : ℚ) < 212 * 100 / 106 := by
  constructor
  · norm_num [frac_cover_rescale, np_interp]
  · norm_num

/-- Claim C4 as amended: each fractional-cover band is rescaled linearly from
0-106 onto 0-100 (0 to 0, 53 to 50, 106 to 100), and inputs outside 0-106
are clamped to the corresponding bound rather than mapped beyond it. -/
theorem frac_cover_rescale_amended :
    frac_cover_rescale 0 = 0 ∧ frac_cover_rescale 53 = 50 ∧
    frac_cover_rescale 106 = 100 ∧
    ∀ v : ℚ, frac_cover_rescale v = min 100 (max 0 (v * 100 / 106)) := by
  refine ⟨by norm_num [frac_cover_rescale, np_interp],
    by norm_num [frac_cover_rescale, np_interp],
    by norm_num [frac_cover_rescale, np_interp], ?_⟩
  intro v
  unfold frac_cover_rescale np_interp
  rcases le_or_lt v 0 with h0 | h0
  · rw [if_pos h0]
    have h1 : v * 100 / 106 ≤ 0 :=
      div_nonpos_of_nonpos_of_nonneg (by nlinarith) (by norm_num)
    rw [max_eq_left h1, min_eq_right (by norm_num : (0 : ℚ) ≤ 100)]
  · rw [if_neg (not_le.mpr h0)]
    rcases le_or_lt 106 v with h1 | h1
    · rw [if_pos h1]
      have h2 : (100 : ℚ) ≤ v * 100 / 106 := by
        rw [le_div_iff₀ (by norm_num : (0 : ℚ) < 106)]
        nlinarith
      rw [max_eq_right (le_trans (by norm_num) h2), min_eq_left h2]
    · rw [if_neg (not_le.mpr h1)]
      have h2 : v * 100 / 106 ≤ 100 := by
        rw [div_le_iff₀ (by norm_num : (0 : ℚ) < 106)]
        nlinarith
      have h3 : (0 : ℚ) ≤ v * 100 / 106 :=
        div_nonneg (by nlinarith) (by norm_num)
      rw [max_eq_right h3, min_eq_right h2]
      ring

/-- Claim C5: a band appears in the difference composite exactly when it is a
band of the composites that is not a raw measurement band, and its value is
the analysis value minus the baseline value. -/
theorem diff_composite_bands_mem (analysis baseline : String → ℚ)
    (bands measurements : List String) (b : String) (v : ℚ) :
    (b, v) ∈ diff_composite_bands analysis baseline bands measurements ↔
      b ∈ bands ∧ b ∉ measurements ∧ v = analysis b - baseline b := by
  simp only [diff_composite_bands, List.mem_map, List.mem_filter,
    decide_eq_true_eq, Prod.mk.injEq]
  constructor
  · rintro ⟨a, ⟨ha, hnot⟩, rfl, rfl⟩
    exact ⟨ha, hnot, rfl⟩
  · rintro ⟨ha, hnot, rfl⟩
    exact ⟨b, ⟨ha, hnot⟩, rfl, rfl⟩

/-- Witness for C5 at a concrete input: with one measurement band and one
index band, the index band survives with the band-wise difference 5 - 2. -/
theorem diff_composite_bands_mem_witness :
    ("ndvi", (3 : ℚ)) ∈
      diff_composite_bands (fun _ => 5) (fun _ => 2) ["red", "ndvi"] ["red"] :=
  (diff_composite_bands_mem (fun _ => 5) (fun _ => 2) ["red", "ndvi"] ["red"]
    "ndvi" 3).mpr ⟨by simp, by simp, by norm_num⟩

/-- Claim C6: visualization colors are layered in priority order — base is
the diverging colormap of the normalized difference unless a change range is
configured (flat highlight base); differences escaping a configured change
range turn black; combined out-of-range pixels turn white, overriding that;
combined no-data pixels become fully transparent, overriding everything;
and with a configured change range every pixel is exactly one of
highlight/black/white/transparent and never depends on the colormap. -/
theorem pixel_color_layering (cmapA : Option ℚ → Color) (cngMin cngMax : Option ℚ)
    (dMin dMax d : ℚ) (oor nd : Bool) :
    (nd = true →
      pixel_color cmapA cngMin cngMax dMin dMax d oor nd = transparent_rgba) ∧
    (nd = false → oor = true →
      pixel_color cmapA cngMin cngMax dMin dMax d oor nd = white_rgba) ∧
    (∀ lo hi, cngMin = some lo → cngMax = some hi → nd = false → oor = false →
      pixel_color cmapA cngMin cngMax dMin dMax d oor nd =
        (if change_range_flag (some d) lo hi then black_rgba else red_rgba)) ∧
    ((cngMin = none ∨ cngMax = none) → nd = false → oor = false →
      pixel_color cmapA cngMin cngMax dMin dMax d oor nd =
        cmapA (some (np_interp d dMin dMax 0 1))) ∧
    (∀ lo hi, cngMin = some lo → cngMax = some hi →
      (pixel_color cmapA cngMin cngMax dMin dMax d oor nd = red_rgba ∨
        pixel_color cmapA cngMin cngMax dMin dMax d oor nd = black_rgba ∨
        pixel_color cmapA cngMin cngMax dMin dMax d oor nd = white_rgba ∨
        pixel_color cmapA cngMin cngMax dMin dMax d oor nd = transparent_rgba)) ∧
    (∀ (cmapB : Option ℚ → Color) lo hi, cngMin = some lo → cngMax = some hi →
      pixel_color cmapA cngMin cngMax dMin dMax d oor nd =
        pixel_color cmapB cngMin cngMax dMin dMax d oor nd) := by
  refine ⟨?_, ?_, ?_, ?_, ?_, ?_⟩
  · rintro rfl
    rw [pixel_color_eq]
    simp
  · rintro rfl rfl
    rw [pixel_color_eq]
    simp
  · rintro lo hi rfl rfl rfl rfl
    rw [pixel_color_eq]
    simp
  · rintro h rfl rfl
    rw [pixel_color_eq]
    rcases h with rfl | rfl
    · simp
    · cases cngMin <;> simp
  · rintro lo hi rfl rfl
    rw [pixel_color_eq]
    cases nd <;> cases oor <;> cases hf : change_range_flag (some d) lo hi <;>
      simp [hf]
  · rintro cmapB lo hi rfl rfl
    rw [pixel_color_eq, pixel_color_eq]

/-- Witness for C6 at a concrete input: change range [0, 1] configured, a
clean pixel with raw difference 5 falls outside it and is painted with the
out-of-change-range color. -/
theorem pixel_color_layering_witness :
    pixel_color (fun _ => white_rgba) (some 0) (some 1) (-2) 2 5 false false =
      black_rgba := by
  have h := (pixel_color_layering (fun _ => white_rgba) (some 0) (some 1)
    (-2) 2 5 false false).2.2.1 0 1 rfl rfl rfl rfl
  rw [h]
  norm_num [change_range_flag]

/-- Counterexample for C7: the archival and georeferenced rasters do not hold
the sentinel at no-valid-data pixels — line 504 writes NaN into the selected
difference band in place, and that band is what lines 550-552 export. -/
theorem exported_no_data_pixel_is_nan :
    exported_selected_band_value 0 true = none ∧
    exported_selected_band_value 0 true ≠ some (-9999) := by
  refine ⟨rfl, ?_⟩
  intro h
  simp [exported_selected_band_value] at h

/-- Claim C7 as amended: no-valid-data pixels of the selected band are marked
NaN (still distinct from every numeric index value) in the numeric outputs,
valid pixels keep their numeric difference, and the sentinel appears as the
explicit declared no-data value of the georeferenced raster. -/
theorem exported_values_amended :
    (∀ dv : ℚ, exported_selected_band_value dv true = none) ∧
    (∀ dv : ℚ, exported_selected_band_value dv false = some dv) ∧
    make_geotiff_call "ndvi" (-9999) = ⟨["ndvi"], -9999⟩ ∧
    make_geotiff_call "fractional_cover" (-9999) = ⟨["bs", "pv", "npv"], -9999⟩ := by
  refine ⟨fun dv => rfl, fun dv => rfl, ?_, ?_⟩ <;>
    simp [make_geotiff_call, single_band_indices]

/-- Counterexample for C8: with a 2-chunk grid, 3 baseline scenes and 2
analysis scenes in total, the progress counter ends at 6, strictly above the
claimed 5 — each chunk adds round(3/2) = 2 for its baseline window and
round(2/2) = 1 for its analysis window. -/
theorem progress_counter_reaches_six_not_five :
    final_progress 2 3 2 = 6 ∧ (5 : ℤ) < final_progress 2 3 2 := by
  have h : final_progress 2 3 2 = 6 := by
    norm_num [final_progress, window_increments, num_scn_per_chk, pyRound]
  exact ⟨h, by rw [h]; norm_num⟩

/-- Claim C8 as amended: each window of each chunk increments the counter by
the pre-estimated per-chunk scene count round(windowTotal/chunks), so the
final counter is chunks × (round(b/chunks) + round(a/chunks)); in the 2×1
scenario with 3 baseline and 2 analysis scenes, total_scenes is 5 but the
counter reaches 6 because of the per-chunk rounding. -/
theorem progress_counter_amended :
    total_scenes 3 2 = 5 ∧ final_progress 2 3 2 = 6 ∧
    ∀ n b a : ℕ, final_progress n b a =
      n * (num_scn_per_chk b n + num_scn_per_chk a n) := by
  refine ⟨rfl, by norm_num [final_progress, window_increments, num_scn_per_chk, pyRound], ?_⟩
  intro n b a
  simpa [final_progress, window_increments] using
    sum_replicate_pair n (num_scn_per_chk b n) (num_scn_per_chk a n)

/-- Claim C9: a chunk whose loaded window has no dimensions yields a null
artifact rather than an error; the recombiner filters null artifacts out,
returns a whole-run null outcome exactly when nothing remains, and otherwise
proceeds with precisely the non-null artifacts. -/
theorem empty_chunk_null_and_recombine_filters (chunks : List (Option ℕ)) :
    (∀ analysisDims art : ℕ, processing_task_result 0 analysisDims art = none) ∧
    (∀ baselineDims art : ℕ, processing_task_result (baselineDims + 1) 0 art = none) ∧
    (recombine_result chunks = none ↔ ∀ c ∈ chunks, c = none) ∧
    (∀ l, recombine_result chunks = some l →
      l ≠ [] ∧ ∀ x, x ∈ l ↔ some x ∈ chunks) := by
  refine ⟨fun _ _ => rfl, fun _ _ => by simp [processing_task_result], ?_, ?_⟩
  · constructor
    · intro h
      by_cases hl : (recombine_filtered chunks).length = 0
      · intro c hc
        have hnil : recombine_filtered chunks = [] := List.length_eq_zero.mp hl
        have := List.filterMap_eq_nil_iff.mp hnil c hc
        simpa using this
      · simp [recombine_result, hl] at h
    · intro h
      have hnil : recombine_filtered chunks = [] :=
        List.filterMap_eq_nil_iff.mpr (by simpa using h)
      simp [recombine_result, hnil]
  · intro l hl
    rw [recombine_result] at hl
    split at hl
    · exact absurd hl (by simp)
    · rename_i hlen
      have hfl : recombine_filtered chunks = l := by
        injection hl
      constructor
      · intro hnil
        apply hlen
        rw [hfl, hnil]
        rfl
      · intro x
        rw [← hfl]
        simp [recombine_filtered, List.mem_filterMap]

/-- Witness for C9 at concrete inputs: a zero-dimension baseline window makes
the chunk return null, an all-null artifact list makes the recombiner return
null, and filtering [null, artifact 3] leaves exactly artifact 3. -/
theorem empty_chunk_null_and_recombine_filters_witness :
    processing_task_result 0 2 (7 : ℕ) = none ∧
    recombine_result ([none, none] : List (Option ℕ)) = none ∧
    ((3 : ℕ) ∈ [3] ↔ some 3 ∈ ([none, some 3] : List (Option ℕ))) := by
  refine ⟨(empty_chunk_null_and_recombine_filters []).1 2 7, ?_, ?_⟩
  · exact (empty_chunk_null_and_recombine_filters [none, none]).2.2.1.mpr (by simp)
  · exact ((empty_chunk_null_and_recombine_filters [none, some 3]).2.2.2 [3]
      (by rfl)).2 3

/-- Claim C10: the change-range filter is active only when BOTH thresholds
are set — with exactly one of them set, the pixel color is identical to the
fully unconfigured case for every input, so a one-sided filter has no effect
on the output image. -/
theorem one_sided_change_range_no_effect (cmapA : Option ℚ → Color)
    (dMin dMax d : ℚ) (oor nd : Bool) (lo hi : ℚ) :
    pixel_color cmapA (some lo) none dMin dMax d oor nd =
      pixel_color cmapA none none dMin dMax d oor nd ∧
    pixel_color cmapA none (some hi) dMin dMax d oor nd =
      pixel_color cmapA none none dMin dMax d oor nd := by
  constructor <;> rfl

end SpectralAnomaly
